import Mathlib

/-
Shallow embedding of the MyMedbook request handlers
(src/api/views/base.py and src/api/views/report.py).

HTTP statuses are naturals.  Exceptions raised inside a handler's try
block are the three kinds the handlers distinguish: the framework's
ValidationError and NotFound, and everything else.  Database failures
(the persistence layer raising an arbitrary exception) are modelled by
a boolean `dbFail` parameter on each handler: when true, the first
database access in the handler raises an unexpected exception.
-/

/-- The exception kinds distinguished by the handlers' except clauses. -/
inductive Exc where
  | validation
  | notFound
  | other
deriving DecidableEq

/-- A patient-identifier path parameter as received by a handler: either it
parses as an integer (Python `int(paziente_id)` succeeds) or it raises
ValueError. -/
inductive PathParam where
  | valid (n : Int)
  | notAnInt
deriving DecidableEq

/-- Embedding of `BasePatientView.validate_paziente_id` (base.py lines 16-24):
convert to int (ValueError becomes ValidationError), reject non-positive. -/
def validate_paziente_id : PathParam → Except Exc Int
  | .valid n => if n ≤ 0 then .error .validation else .ok n
  | .notAnInt => .error .validation

/-- A generic per-patient section record; `content` stands for the record's
other (serializer-validated) fields. -/
structure Record where
  paziente_id : Int
  content : Nat
deriving DecidableEq

/-- Embedding of `self.model.objects(paziente_id=pid).first()`: the first
stored record for the patient, if any. -/
def objectsFirst (db : List Record) (pid : Int) : Option Record :=
  (db.filter fun r => r.paziente_id == pid).head?

/-- Embedding of `BasePatientView.get_object` (base.py lines 26-33): validate
the id, then query; a query failure is logged and re-raised. -/
def get_object (db : List Record) (p : PathParam) (dbFail : Bool) :
    Except Exc (Option Record) := do
  let pid ← validate_paziente_id p
  if dbFail then throw Exc.other
  else pure (objectsFirst db pid)

/-- The body of `BasePatientView.get`'s try block (base.py lines 41-47). -/
def BasePatientView.getCore (db : List Record) (p : PathParam) (dbFail : Bool) :
    Except Exc Record := do
  match ← get_object db p dbFail with
  | none => throw Exc.notFound
  | some inst => pure inst

/-- Embedding of `BasePatientView.get` (base.py lines 39-55): ValidationError
and NotFound are both mapped to 400, anything else to 500, success to 200. -/
def BasePatientView.get (db : List Record) (p : PathParam) (dbFail : Bool) : Nat :=
  match BasePatientView.getCore db p dbFail with
  | .ok _ => 200
  | .error .validation => 400
  | .error .notFound => 400
  | .error .other => 500

/-- The request body of a PUT: an optional paziente_id field, the remaining
payload, and whether the serializer accepts the payload. -/
structure ReqData where
  paziente_id : Option Int
  content : Nat
  valid : Bool
deriving DecidableEq

/-- Modelled from the spec: the serializer classes (api/serializers, not under
src/) delegate field validation to the serializer layer; `is_valid` is the
outcome of that validation for the submitted payload. -/
def serializerIsValid (data : ReqData) : Bool := data.valid

/-- Modelled from the spec: a serializer's `validated_data` passes the
submitted fields through once validation succeeds, including the
`paziente_id` value present in the data dict. -/
def validatedRecord (data : ReqData) : Record :=
  { paziente_id := data.paziente_id.getD 0, content := data.content }

/-- Embedding of `instance.save()` on an existing document: replace the first
stored record of the patient with the updated one. -/
def updateFirst (db : List Record) (pid : Int) (v : Record) : List Record :=
  match db with
  | [] => []
  | r :: rs => if r.paziente_id == pid then v :: rs else r :: updateFirst rs pid v

/-- Embedding of `BasePatientView.put` (base.py lines 57-101).  The path id is
validated, the body's `paziente_id` is overwritten with the validated path id,
the serializer is checked, then the record is updated in place or created.
The final status mirrors the source's `200 if instance else 201`, evaluated
after `instance` has been (re)assigned in both branches. -/
def BasePatientView.put (db : List Record) (p : PathParam) (body : ReqData)
    (dbFail : Bool) : Nat × List Record :=
  match validate_paziente_id p with
  | .error _ => (400, db)
  | .ok pid =>
    if dbFail then (500, db)
    else
      let inst := objectsFirst db pid
      let data := { body with paziente_id := some pid }
      if serializerIsValid data then
        let v := validatedRecord data
        match inst with
        | some _ =>
          let instAfter : Option Record := some v
          ((if instAfter.isSome then 200 else 201), updateFirst db pid v)
        | none =>
          let instAfter : Option Record := some v
          ((if instAfter.isSome then 200 else 201), db ++ [v])
      else (400, db)

/-- A report document: patient id, per-patient report id, operator id, and the
snapshotted per-section references (one entry per section, none when the
section had no record at creation time). -/
structure Report where
  paziente_id : Int
  report_id : Int
  operatore_id : Int
  sections : List (Option Nat)
deriving DecidableEq

/-- Modelled from the spec: `Report.get_next_report_id` (api/models/report.py,
not under src/) is the monotonic-per-patient counter obtained from existing
records: one more than the largest report identifier currently stored for the
patient (so 1 when the patient has no reports). -/
def Report.get_next_report_id (db : List Report) (pid : Int) : Int :=
  ((db.filter fun r => r.paziente_id == pid).foldr
    (fun r m => max r.report_id m) 0) + 1

/-- The per-section state of a patient: for each section, the latest record
of that section (a reference), or none when the section is empty. -/
abbrev SectionState := List (Option Nat)

/-- Modelled from the spec: `report.get_latest_records` (api/models/report.py,
not under src/) returns, for each section, the latest record of that section
for the report's patient, or none; here the per-patient section state is the
lookup's result. -/
def Report.get_latest_records (latest : SectionState) : SectionState := latest

/-- Pagination configuration of `ReportPagination` (report.py lines 12-15). -/
def ReportPagination.page_size : Nat := 10

/-- Maximum page size of `ReportPagination` (report.py line 15). -/
def ReportPagination.max_page_size : Nat := 100

/-- Modelled from the spec: the framework's page-number pagination (not under
src/) uses the `page_size` query parameter when it is a positive integer,
capped at `max_page_size`, and the default `page_size` otherwise. -/
def getPageSize (req : Option Nat) : Nat :=
  match req with
  | some n =>
    if 0 < n then min n ReportPagination.max_page_size
    else ReportPagination.page_size
  | none => ReportPagination.page_size

/-- Modelled from the spec: the framework's page-number pagination returns the
requested page (1-based) of at most `getPageSize req` items. -/
def paginate (l : List Report) (page : Nat) (req : Option Nat) : List Report :=
  (l.drop ((page - 1) * getPageSize req)).take (getPageSize req)

/-- The descending-by-report-id order used by `.order_by(-report_id)`. -/
def repGE (a b : Report) : Prop := b.report_id ≤ a.report_id

instance : DecidableRel repGE := fun a b =>
  inferInstanceAs (Decidable (b.report_id ≤ a.report_id))

instance : IsTotal Report repGE := ⟨fun a b => le_total b.report_id a.report_id⟩

instance : IsTrans Report repGE := ⟨fun _ _ _ h1 h2 => le_trans h2 h1⟩

/-- Embedding of `Report.objects(paziente_id=...).order_by(-report_id)`:
the patient's reports sorted by descending report identifier. -/
def orderByReportIdDesc (db : List Report) (pid : Int) : List Report :=
  (db.filter fun r => r.paziente_id == pid).insertionSort repGE

/-- The composite-key filter `objects(paziente_id=..., report_id=...)`. -/
def reportKey (pid rid : Int) (r : Report) : Bool :=
  r.paziente_id == pid && r.report_id == rid

/-- Embedding of `Report.objects(paziente_id=..., report_id=...).first()`. -/
def findReport (db : List Report) (pid rid : Int) : Option Report :=
  (db.filter (reportKey pid rid)).head?

/-- Embedding of `ReportView.get` (report.py lines 33-56).  `rid?` is the
optional report_id path parameter; `if report_id` is Python truthiness, so
none and 0 both take the paginated-list branch.  NotFound maps to 404, any
other exception to 500. -/
def ReportView.get (db : List Report) (pid : Int) (rid? : Option Int)
    (dbFail : Bool) : Nat :=
  if dbFail then 500
  else
    match rid? with
    | some rid =>
      if rid != 0 then
        match findReport db pid rid with
        | none => 404
        | some _ => 200
      else 200
    | none => 200

/-- The items of the paginated list branch of `ReportView.get`
(report.py lines 44-47 with `get_paginated_response`). -/
def ReportView.listItems (db : List Report) (pid : Int) (page : Nat)
    (req : Option Nat) : List Report :=
  paginate (orderByReportIdDesc db pid) page req

/-- Embedding of `ReportView.post` (report.py lines 58-94): build the report
with the next per-patient id, fetch the latest record of every section,
reject with ValidationError (400) when every section is empty, otherwise
attach the references, save and return 201.  No validation of `pid` occurs. -/
def ReportView.post (db : List Report) (pid op : Int) (latest : SectionState)
    (dbFail : Bool) : Nat × List Report :=
  if dbFail then (500, db)
  else
    let report : Report :=
      { paziente_id := pid, operatore_id := op,
        report_id := Report.get_next_report_id db pid, sections := [] }
    let latest_records := Report.get_latest_records latest
    if latest_records.all Option.isNone then (400, db)
    else (201, db ++ [{ report with sections := latest_records }])

/-- Embedding of `ReportView.delete` (report.py lines 96-113): find the report
by (paziente_id, report_id); delete that one document and return 204, or 404
when absent. -/
def ReportView.delete (db : List Report) (pid rid : Int) (dbFail : Bool) :
    Nat × List Report :=
  if dbFail then (500, db)
  else
    match findReport db pid rid with
    | none => (404, db)
    | some _ => (204, db.eraseP (reportKey pid rid))

/-- Embedding of `QuickReportView.get` (report.py lines 121-141): list the
patient's reports (paginated, newest first); only the generic 500 catch-all
exists.  No validation of `pid` occurs. -/
def QuickReportView.get (db : List Report) (pid : Int) (dbFail : Bool) : Nat :=
  if dbFail then 500 else 200

/-- The items of `QuickReportView.get`'s paginated response
(report.py lines 124-131). -/
def QuickReportView.listItems (db : List Report) (pid : Int) (page : Nat)
    (req : Option Nat) : List Report :=
  paginate (orderByReportIdDesc db pid) page req

/- Helper lemmas. -/

lemma length_paginate_le (l : List Report) (page : Nat) (req : Option Nat) :
    (paginate l page req).length ≤ getPageSize req := by
  unfold paginate
  exact List.length_take_le _ _

lemma getPageSize_le_max (req : Option Nat) :
    getPageSize req ≤ ReportPagination.max_page_size := by
  rcases req with _ | n <;>
    simp only [getPageSize, ReportPagination.max_page_size,
      ReportPagination.page_size]
  · omega
  · split <;> omega

lemma getPageSize_none : getPageSize none = ReportPagination.page_size := rfl

lemma validate_pos (pid : Int) (hpid : 0 < pid) :
    validate_paziente_id (PathParam.valid pid) = .ok pid := by
  simp only [validate_paziente_id]
  rw [if_neg (by omega : ¬ pid ≤ 0)]

lemma get_object_ok (db : List Record) (pid : Int) (hpid : 0 < pid) :
    get_object db (PathParam.valid pid) false = .ok (objectsFirst db pid) := by
  unfold get_object
  rw [validate_pos pid hpid]
  rfl

lemma get_object_dbFail (db : List Record) (pid : Int) (hpid : 0 < pid) :
    get_object db (PathParam.valid pid) true = .error .other := by
  unfold get_object
  rw [validate_pos pid hpid]
  rfl

lemma get_object_invalid (db : List Record) (p : PathParam) (dbFail : Bool)
    (hbad : validate_paziente_id p = .error .validation) :
    get_object db p dbFail = .error .validation := by
  unfold get_object
  rw [hbad]
  rfl

/-- C1 (code bug): a PUT that creates a record returns status 200, not the 201
the spec claims: in base.py line 91, `200 if instance else 201` is evaluated
after `instance` has been reassigned to the freshly created document, so the
201 branch is unreachable.  On an empty database with a valid body for
patient 1, the record is created but the status is 200. -/
theorem c1_put_create_returns_200 :
    BasePatientView.put [] (PathParam.valid 1)
      { paziente_id := none, content := 5, valid := true } false
      = (200, [{ paziente_id := 1, content := 5 }]) := by decide

/-- C2 (counterexample): a GET on the generic record endpoint for a valid
positive patient with no stored record returns 400, not the 404 the claim
states: base.py line 48 catches NotFound together with ValidationError and
maps both to HTTP 400. -/
theorem c2_counterexample :
    BasePatientView.get [] (PathParam.valid 1) false = 400 ∧
    BasePatientView.get [] (PathParam.valid 1) false ≠ 404 := by decide

/-- C2 (amended): a GET on the generic record endpoint with a valid positive
patient identifier and no stored record returns status 400 (the handler
raises NotFound but its except clause maps NotFound to 400). -/
theorem c2_get_missing_returns_400 (db : List Record) (pid : Int)
    (hpid : 0 < pid) (habs : objectsFirst db pid = none) :
    BasePatientView.get db (PathParam.valid pid) false = 400 := by
  unfold BasePatientView.get BasePatientView.getCore
  rw [get_object_ok db pid hpid, habs]
  rfl

/-- C2 witness: the amended claim holds at patient 1 on the empty database. -/
theorem c2_witness :
    (0 : Int) < 1 ∧ objectsFirst [] 1 = none ∧
    BasePatientView.get [] (PathParam.valid 1) false = 400 :=
  ⟨by decide, by decide, c2_get_missing_returns_400 [] 1 (by decide) (by decide)⟩

/-- C4: a report POST for a patient whose every per-section latest-record
lookup is empty raises ValidationError and returns 400 with no report
created; when at least one section has a record, a report is created
(database grows by one) and 201 is returned. -/
theorem c4_post_requires_section_record (db : List Report) (pid op : Int)
    (latest : SectionState) :
    (latest.all Option.isNone = true →
      ReportView.post db pid op latest false = (400, db)) ∧
    (latest.all Option.isNone = false →
      (ReportView.post db pid op latest false).1 = 201 ∧
      (ReportView.post db pid op latest false).2.length = db.length + 1) := by
  unfold ReportView.post Report.get_latest_records
  constructor
  · intro h; simp [h]
  · intro h; simp [h]

/-- C4 witness: with both sections empty the POST is rejected as 400 and the
database is unchanged; with one section populated it returns 201. -/
theorem c4_witness :
    ReportView.post [] 1 7 [none, none] false = (400, []) ∧
    (ReportView.post [] 1 7 [some 3, none] false).1 = 201 :=
  ⟨(c4_post_requires_section_record [] 1 7 [none, none]).1 (by decide),
   ((c4_post_requires_section_record [] 1 7 [some 3, none]).2 (by decide)).1⟩

/-- C6 (counterexample): the report and quick-report endpoints do not validate
the patient identifier: a list GET with the non-positive patient identifier
-1 returns 200, not the 400 the claim states for every endpoint. -/
theorem c6_counterexample :
    ReportView.get [] (-1) none false = 200 ∧
    QuickReportView.get [] (-1) false = 200 ∧
    ReportView.get [] (-1) none false ≠ 400 := by decide

/-- C6 (amended): only the generic record endpoints (BasePatientView GET and
PUT) return 400 when the patient identifier path parameter is not a valid
integer or is not positive; the report and quick-report handlers perform no
patient-identifier validation and their list GETs return 200 even for a
non-positive identifier. -/
theorem c6_base_validates_reports_do_not (db : List Record) (rdb : List Report)
    (body : ReqData) (p : PathParam) (dbFail : Bool) (pid : Int)
    (hbad : validate_paziente_id p = .error .validation) (hpid : pid ≤ 0) :
    BasePatientView.get db p dbFail = 400 ∧
    (BasePatientView.put db p body dbFail).1 = 400 ∧
    ReportView.get rdb pid none false = 200 ∧
    QuickReportView.get rdb pid false = 200 := by
  refine ⟨?_, ?_, rfl, rfl⟩
  · unfold BasePatientView.get BasePatientView.getCore
    rw [get_object_invalid db p dbFail hbad]
    rfl
  · unfold BasePatientView.put
    rw [hbad]

/-- C6 witness: the amended claim holds for the non-integer parameter and for
patient identifier -1. -/
theorem c6_witness :
    validate_paziente_id PathParam.notAnInt = .error .validation ∧
    (-1 : Int) ≤ 0 ∧
    BasePatientView.get [] PathParam.notAnInt false = 400 ∧
    ReportView.get [] (-1) none false = 200 :=
  ⟨rfl, by decide,
   (c6_base_validates_reports_do_not [] [] ⟨none, 0, true⟩ PathParam.notAnInt
      false (-1) rfl (by decide)).1,
   (c6_base_validates_reports_do_not [] [] ⟨none, 0, true⟩ PathParam.notAnInt
      false (-1) rfl (by decide)).2.2.1⟩

/-- C7: a page returned by the report or quick-report list endpoints never
holds more than max_page_size (100) items, and when no page-size parameter is
given it holds at most the default page_size (10) items. -/
theorem c7_pagination_bounds (db : List Report) (pid : Int) (page : Nat)
    (req : Option Nat) :
    (ReportView.listItems db pid page req).length
        ≤ ReportPagination.max_page_size ∧
    (ReportView.listItems db pid page none).length
        ≤ ReportPagination.page_size ∧
    (QuickReportView.listItems db pid page req).length
        ≤ ReportPagination.max_page_size ∧
    (QuickReportView.listItems db pid page none).length
        ≤ ReportPagination.page_size := by
  refine ⟨?_, ?_, ?_, ?_⟩ <;>
    first
      | exact le_trans (length_paginate_le _ _ _) (getPageSize_le_max _)
      | exact le_of_le_of_eq (length_paginate_le _ _ _) getPageSize_none

/-- C8: in every handler, an unexpected exception from the persistence layer
(anything other than ValidationError / NotFound, modelled by dbFail) is
caught by the final except clause and mapped to exactly status 500; no
handler lets it escape. -/
theorem c8_unexpected_exception_maps_to_500 (db : List Record)
    (rdb : List Report) (body : ReqData) (pid op rid : Int)
    (latest : SectionState) (rid? : Option Int) (hpid : 0 < pid) :
    BasePatientView.get db (PathParam.valid pid) true = 500 ∧
    (BasePatientView.put db (PathParam.valid pid) body true).1 = 500 ∧
    ReportView.get rdb pid rid? true = 500 ∧
    (ReportView.post rdb pid op latest true).1 = 500 ∧
    (ReportView.delete rdb pid rid true).1 = 500 ∧
    QuickReportView.get rdb pid true = 500 := by
  refine ⟨?_, ?_, rfl, rfl, rfl, rfl⟩
  · unfold BasePatientView.get BasePatientView.getCore
    rw [get_object_dbFail db pid hpid]
    rfl
  · unfold BasePatientView.put
    rw [validate_pos pid hpid]
    rfl

/-- C8 witness: at patient 1 every handler returns 500 when the persistence
layer raises. -/
theorem c8_witness :
    (0 : Int) < 1 ∧ BasePatientView.get [] (PathParam.valid 1) true = 500 ∧
    QuickReportView.get [] 1 true = 500 :=
  ⟨by decide,
   (c8_unexpected_exception_maps_to_500 [] [] ⟨none, 0, true⟩ 1 0 0 [] none
      (by decide)).1,
   (c8_unexpected_exception_maps_to_500 [] [] ⟨none, 0, true⟩ 1 0 0 [] none
      (by decide)).2.2.2.2.2⟩

/- Helper lemmas for the report claims. -/

lemma mem_le_foldr_max (l : List Report) (r : Report) (h : r ∈ l) :
    r.report_id ≤ l.foldr (fun r m => max r.report_id m) 0 := by
  induction l with
  | nil => cases h
  | cons x xs ih =>
    rcases List.mem_cons.mp h with h | h
    · subst h; exact le_max_left _ _
    · exact le_trans (ih h) (le_max_right _ _)

lemma report_id_lt_next (db : List Report) (pid : Int) (r : Report)
    (hmem : r ∈ db) (hp : r.paziente_id = pid) :
    r.report_id < Report.get_next_report_id db pid := by
  have hf : r ∈ db.filter fun r => r.paziente_id == pid :=
    List.mem_filter.mpr ⟨hmem, by simp [hp]⟩
  have h2 := mem_le_foldr_max _ r hf
  unfold Report.get_next_report_id
  omega

/-- The report document a successful POST stores: next per-patient id, the
submitted operator, and the snapshotted section references. -/
def newReport (db : List Report) (pid op : Int) (latest : SectionState) : Report :=
  { paziente_id := pid, report_id := Report.get_next_report_id db pid,
    operatore_id := op, sections := latest }

lemma reportPost_eq (db : List Report) (pid op : Int) (latest : SectionState)
    (hsome : latest.all Option.isNone = false) :
    ReportView.post db pid op latest false
      = (201, db ++ [newReport db pid op latest]) := by
  unfold ReportView.post Report.get_latest_records newReport
  simp [hsome]

/-- C3: a successful report POST appends a report for the patient whose
report identifier (obtained from the monotonic-per-patient counter) is
strictly greater than every report identifier already stored for that
patient; in particular per-patient uniqueness of report identifiers is
preserved. -/
theorem c3_report_ids_strictly_increase (db : List Report) (pid op : Int)
    (latest : SectionState) (hsome : latest.all Option.isNone = false) :
    (ReportView.post db pid op latest false).1 = 201 ∧
    (ReportView.post db pid op latest false).2
      = db ++ [newReport db pid op latest] ∧
    (newReport db pid op latest).paziente_id = pid ∧
    (∀ r ∈ db, r.paziente_id = pid →
      r.report_id < (newReport db pid op latest).report_id) ∧
    (((db.filter fun r => r.paziente_id == pid).map Report.report_id).Nodup →
      ((((ReportView.post db pid op latest false).2.filter
          fun r => r.paziente_id == pid).map Report.report_id).Nodup)) := by
  have hpost := reportPost_eq db pid op latest hsome
  refine ⟨by rw [hpost], by rw [hpost], rfl, ?_, ?_⟩
  · intro r hr hp
    exact report_id_lt_next db pid r hr hp
  · intro hnd
    rw [hpost]
    simp only [List.filter_append, List.map_append]
    have hfil : (List.filter (fun r => r.paziente_id == pid)
        [newReport db pid op latest]) = [newReport db pid op latest] := by
      simp [newReport]
    rw [hfil, List.nodup_append]
    refine ⟨hnd, List.nodup_singleton _, ?_⟩
    intro a ha hb
    simp only [List.map_cons, List.map_nil, List.mem_singleton] at hb
    rcases List.mem_map.mp ha with ⟨b, hbmem, hbeq⟩
    rcases List.mem_filter.mp hbmem with ⟨hbdb, hbp⟩
    have hlt := report_id_lt_next db pid b hbdb (by simpa using hbp)
    have hnr : (newReport db pid op latest).report_id
        = Report.get_next_report_id db pid := rfl
    exact absurd (hbeq.trans (hb.trans hnr)) (ne_of_lt hlt)

/-- C3 witness: on a database holding report 1 for patient 1, a new POST for
patient 1 gets report identifier 2, strictly above the existing one. -/
theorem c3_witness :
    ([some 3] : SectionState).all Option.isNone = false ∧
    (ReportView.post [⟨1, 1, 0, [some 2]⟩] 1 9 [some 3] false).2
      = [⟨1, 1, 0, [some 2]⟩, ⟨1, 2, 9, [some 3]⟩] := by
  refine ⟨by decide, ?_⟩
  have h := (c3_report_ids_strictly_increase [⟨1, 1, 0, [some 2]⟩] 1 9 [some 3]
    (by decide)).2.1
  rw [h]
  decide

/- C3 end. -/

/- Helper lemmas for C5. -/

lemma reportKey_iff (pid rid : Int) (r : Report) :
    reportKey pid rid r = true ↔ r.paziente_id = pid ∧ r.report_id = rid := by
  simp [reportKey]

lemma reportKey_false_iff (pid rid : Int) (r : Report) :
    reportKey pid rid r = false ↔ ¬(r.paziente_id = pid ∧ r.report_id = rid) := by
  rw [Bool.eq_false_iff, Ne, reportKey_iff]

lemma filter_eraseP_nil (p : Report → Bool) (l : List Report)
    (h : (l.filter p).length ≤ 1) : (l.eraseP p).filter p = [] := by
  induction l with
  | nil => rfl
  | cons x xs ih =>
    by_cases hx : p x = true
    · rw [List.eraseP_cons_of_pos hx]
      rw [List.filter_cons_of_pos hx] at h
      simp only [List.length_cons] at h
      exact List.length_eq_zero.mp (by omega)
    · rw [List.filter_cons_of_neg hx] at h
      rw [List.eraseP_cons_of_neg hx, List.filter_cons_of_neg hx]
      exact ih h

lemma reportGet_single_missing (db : List Report) (pid rid : Int)
    (hrid : rid ≠ 0) (hfind : findReport db pid rid = none) :
    ReportView.get db pid (some rid) false = 404 := by
  unfold ReportView.get
  rw [if_neg (by decide : ¬ (false = true))]
  dsimp only
  rw [if_pos (bne_iff_ne.mpr hrid), hfind]

/-- C5: deleting an existing report removes exactly that report (database
shrinks by one, all other reports survive) and returns 204; a subsequent GET
for the same (patient identifier, report identifier) returns 404; deleting a
non-existing report returns 404 and leaves the database unchanged.  The
hypotheses reflect the system's own invariants: report identifiers are
per-patient unique and non-zero (POSTed reports always get a positive id). -/
theorem c5_delete_report (db : List Report) (pid rid : Int) (hrid : rid ≠ 0)
    (huniq : (db.filter (reportKey pid rid)).length ≤ 1) :
    ((∃ r ∈ db, r.paziente_id = pid ∧ r.report_id = rid) →
      (ReportView.delete db pid rid false).1 = 204 ∧
      (ReportView.delete db pid rid false).2.length + 1 = db.length ∧
      (∀ r ∈ db, ¬(r.paziente_id = pid ∧ r.report_id = rid) →
        r ∈ (ReportView.delete db pid rid false).2) ∧
      ReportView.get (ReportView.delete db pid rid false).2 pid (some rid)
        false = 404) ∧
    ((∀ r ∈ db, ¬(r.paziente_id = pid ∧ r.report_id = rid)) →
      ReportView.delete db pid rid false = (404, db)) := by
  constructor
  · rintro ⟨r, hr, hp1, hp2⟩
    have hkey : reportKey pid rid r = true :=
      (reportKey_iff pid rid r).mpr ⟨hp1, hp2⟩
    obtain ⟨r0, hr0⟩ : ∃ r0, findReport db pid rid = some r0 := by
      unfold findReport
      cases hcase : db.filter (reportKey pid rid) with
      | nil => exact absurd hkey (List.filter_eq_nil_iff.mp hcase r hr)
      | cons a as => exact ⟨a, rfl⟩
    have hdel : ReportView.delete db pid rid false
        = (204, db.eraseP (reportKey pid rid)) := by
      unfold ReportView.delete
      rw [hr0]
      rfl
    refine ⟨by rw [hdel], ?_, ?_, ?_⟩
    · rw [hdel]
      have hlen := List.length_eraseP_of_mem hr hkey
      have hpos : 0 < db.length := List.length_pos_of_mem hr
      simp only
      omega
    · intro r' hr' hnk
      rw [hdel]
      exact (List.mem_eraseP_of_neg
        (by rw [(reportKey_false_iff pid rid r').mpr hnk]; decide)).mpr hr'
    · rw [hdel]
      refine reportGet_single_missing _ pid rid hrid ?_
      unfold findReport
      rw [filter_eraseP_nil _ _ huniq]
      rfl
  · intro hnone
    have hfil : db.filter (reportKey pid rid) = [] :=
      List.filter_eq_nil_iff.mpr fun r hr =>
        by rw [(reportKey_false_iff pid rid r).mpr (hnone r hr)]; decide
    have hfind : findReport db pid rid = none := by
      unfold findReport
      rw [hfil]
      rfl
    unfold ReportView.delete
    rw [hfind]
    rfl

/-- C5 witness: on a database with the single report (1,1), DELETE returns
204 and a subsequent GET returns 404; on the empty database DELETE returns
404 with the state unchanged. -/
theorem c5_witness :
    (1 : Int) ≠ 0 ∧
    (ReportView.delete [⟨1, 1, 0, [some 2]⟩] 1 1 false).1 = 204 ∧
    ReportView.get (ReportView.delete [⟨1, 1, 0, [some 2]⟩] 1 1 false).2 1
      (some 1) false = 404 ∧
    ReportView.delete [] 1 1 false = (404, []) := by
  have h := c5_delete_report [⟨1, 1, 0, [some 2]⟩] 1 1 (by decide) (by decide)
  have h1 := h.1 ⟨⟨1, 1, 0, [some 2]⟩, by decide, rfl, rfl⟩
  have h2 := (c5_delete_report [] 1 1 (by decide) (by decide)).2
    (fun r hr => absurd hr (List.not_mem_nil r))
  exact ⟨by decide, h1.1, h1.2.2.2, h2⟩

/-- C9: the report and quick-report list endpoints return the patient's
reports sorted by strictly decreasing report identifier (newest first), on
every page; strictness uses the system invariant that report identifiers are
unique per patient. -/
theorem c9_lists_ordered_desc (db : List Report) (pid : Int) (page : Nat)
    (req : Option Nat)
    (hnodup : ((db.filter fun r => r.paziente_id == pid).map
      Report.report_id).Nodup) :
    (ReportView.listItems db pid page req).Pairwise
      (fun a b => b.report_id < a.report_id) ∧
    (QuickReportView.listItems db pid page req).Pairwise
      (fun a b => b.report_id < a.report_id) := by
  have key : (orderByReportIdDesc db pid).Pairwise
      (fun a b => b.report_id < a.report_id) := by
    have hsorted : (orderByReportIdDesc db pid).Pairwise repGE :=
      List.sorted_insertionSort repGE _
    have hperm : List.Perm (orderByReportIdDesc db pid)
        (db.filter fun r => r.paziente_id == pid) :=
      List.perm_insertionSort repGE _
    have hnd : ((orderByReportIdDesc db pid).map Report.report_id).Nodup :=
      ((hperm.map Report.report_id).nodup_iff).mpr hnodup
    have hne : (orderByReportIdDesc db pid).Pairwise
        (fun a b => a.report_id ≠ b.report_id) := List.pairwise_map.mp hnd
    exact (hsorted.and hne).imp fun h => lt_of_le_of_ne h.1 (Ne.symm h.2)
  have hsub : List.Sublist (paginate (orderByReportIdDesc db pid) page req)
      (orderByReportIdDesc db pid) := by
    unfold paginate
    exact (List.take_sublist _ _).trans (List.drop_sublist _ _)
  exact ⟨key.sublist hsub, key.sublist hsub⟩

/-- C9 witness: with reports 1 and 2 for patient 1 the first default page is
strictly descending. -/
theorem c9_witness :
    ((([⟨1, 1, 0, []⟩, ⟨1, 2, 0, []⟩] : List Report).filter
        fun r => r.paziente_id == 1).map Report.report_id).Nodup ∧
    (ReportView.listItems [⟨1, 1, 0, []⟩, ⟨1, 2, 0, []⟩] 1 1 none).Pairwise
      (fun a b => b.report_id < a.report_id) :=
  ⟨by decide,
   (c9_lists_ordered_desc [⟨1, 1, 0, []⟩, ⟨1, 2, 0, []⟩] 1 1 none
      (by decide)).1⟩

/- Helper lemmas for C10. -/

lemma basePut_dbFail (db : List Record) (pid : Int) (body : ReqData)
    (hpid : 0 < pid) :
    BasePatientView.put db (PathParam.valid pid) body true = (500, db) := by
  unfold BasePatientView.put
  rw [validate_pos pid hpid]
  rfl

lemma basePut_invalid_body (db : List Record) (pid : Int) (body : ReqData)
    (hpid : 0 < pid) (hv : body.valid = false) :
    BasePatientView.put db (PathParam.valid pid) body false = (400, db) := by
  unfold BasePatientView.put
  rw [validate_pos pid hpid]
  simp [serializerIsValid, hv]

lemma basePut_update (db : List Record) (pid : Int) (body : ReqData)
    (hpid : 0 < pid) (hv : body.valid = true) (w : Record)
    (hobj : objectsFirst db pid = some w) :
    BasePatientView.put db (PathParam.valid pid) body false
      = (200, updateFirst db pid
          (validatedRecord { body with paziente_id := some pid })) := by
  unfold BasePatientView.put
  rw [validate_pos pid hpid]
  simp [serializerIsValid, hv, hobj]

lemma basePut_create (db : List Record) (pid : Int) (body : ReqData)
    (hpid : 0 < pid) (hv : body.valid = true)
    (hobj : objectsFirst db pid = none) :
    BasePatientView.put db (PathParam.valid pid) body false
      = (200, db ++ [validatedRecord { body with paziente_id := some pid }]) := by
  unfold BasePatientView.put
  rw [validate_pos pid hpid]
  simp [serializerIsValid, hv, hobj]

lemma filter_updateFirst (db : List Record) (pid : Int) (v : Record)
    (hv : v.paziente_id = pid) :
    ((updateFirst db pid v).filter fun r => !(r.paziente_id == pid))
      = db.filter fun r => !(r.paziente_id == pid) := by
  induction db with
  | nil => rfl
  | cons r rs ih =>
    simp only [updateFirst]
    by_cases h : r.paziente_id = pid
    · rw [if_pos (by simp [h])]
      rw [List.filter_cons_of_neg (by simp [hv]),
        List.filter_cons_of_neg (by simp [h])]
    · rw [if_neg (by simp [h])]
      rw [List.filter_cons_of_pos (by simp [h]),
        List.filter_cons_of_pos (by simp [h]), ih]

lemma mem_updateFirst (db : List Record) (pid : Int) (v : Record) (r : Record)
    (h : r ∈ updateFirst db pid v) : r ∈ db ∨ r = v := by
  induction db with
  | nil =>
    simp only [updateFirst] at h
    exact absurd h (List.not_mem_nil r)
  | cons x xs ih =>
    simp only [updateFirst] at h
    by_cases hx : (x.paziente_id == pid) = true
    · rw [if_pos hx] at h
      rcases List.mem_cons.mp h with h | h
      · exact Or.inr h
      · exact Or.inl (List.mem_cons_of_mem _ h)
    · rw [if_neg hx] at h
      rcases List.mem_cons.mp h with h | h
      · exact Or.inl (by rw [h]; exact List.mem_cons_self _ _)
      · rcases ih h with h | h
        · exact Or.inl (List.mem_cons_of_mem _ h)
        · exact Or.inr h

/-- C10: a PUT stores the validated path patient identifier, overriding any
paziente_id supplied in the body (the handler's result does not depend on the
body's paziente_id at all), records of other patients are untouched, and
every record of the resulting database is either an old record or belongs to
the path patient — a PUT can never move a record to a different patient. -/
theorem c10_put_pins_patient_id (db : List Record) (pid x : Int)
    (body : ReqData) (dbFail : Bool) (hpid : 0 < pid) :
    BasePatientView.put db (PathParam.valid pid) body dbFail
      = BasePatientView.put db (PathParam.valid pid)
          { body with paziente_id := some x } dbFail ∧
    ((BasePatientView.put db (PathParam.valid pid) body dbFail).2.filter
        fun r => !(r.paziente_id == pid))
      = db.filter (fun r => !(r.paziente_id == pid)) ∧
    ∀ r ∈ (BasePatientView.put db (PathParam.valid pid) body dbFail).2,
      r ∈ db ∨ r.paziente_id = pid := by
  have hvp : (validatedRecord { body with paziente_id := some pid }).paziente_id
      = pid := rfl
  refine ⟨rfl, ?_, ?_⟩
  · cases dbFail with
    | true => rw [basePut_dbFail db pid body hpid]
    | false =>
      cases hv : body.valid with
      | false => rw [basePut_invalid_body db pid body hpid hv]
      | true =>
        cases hobj : objectsFirst db pid with
        | none =>
          rw [basePut_create db pid body hpid hv hobj]
          simp only [List.filter_append]
          rw [List.filter_cons_of_neg (by simp [hvp]), List.filter_nil,
            List.append_nil]
        | some w =>
          rw [basePut_update db pid body hpid hv w hobj]
          exact filter_updateFirst db pid _ hvp
  · intro r hr
    cases dbFail with
    | true =>
      rw [basePut_dbFail db pid body hpid] at hr
      exact Or.inl hr
    | false =>
      cases hv : body.valid with
      | false =>
        rw [basePut_invalid_body db pid body hpid hv] at hr
        exact Or.inl hr
      | true =>
        cases hobj : objectsFirst db pid with
        | none =>
          rw [basePut_create db pid body hpid hv hobj] at hr
          rcases List.mem_append.mp hr with h | h
          · exact Or.inl h
          · refine Or.inr ?_
            rw [List.mem_singleton.mp h]
            exact hvp
        | some w =>
          rw [basePut_update db pid body hpid hv w hobj] at hr
          rcases mem_updateFirst db pid _ r hr with h | h
          · exact Or.inl h
          · refine Or.inr ?_
            rw [h]
            exact hvp

/-- C10 witness: with a body carrying paziente_id 99, a PUT for patient 1
behaves exactly as with paziente_id 7 in the body — the body's value is
ignored in favour of the path parameter. -/
theorem c10_witness :
    (0 : Int) < 1 ∧
    BasePatientView.put [] (PathParam.valid 1) ⟨some 99, 4, true⟩ false
      = BasePatientView.put [] (PathParam.valid 1) ⟨some 7, 4, true⟩ false :=
  ⟨by decide,
   (c10_put_pins_patient_id [] 1 7 ⟨some 99, 4, true⟩ false (by decide)).1⟩
